import Mathlib

/-!
Shallow embedding of the YouTube PubSubHubbub notifier (`src/server.js`):
the configuration, the subscription request builder `_makeRequest`, the
`subscribe`/`unsubscribe` argument handling, and the GET/POST callback
handlers `_onGetRequest`/`_onPostRequest`, followed by theorems settling the
specification claims.  JavaScript truthiness, first-occurrence string
replacement, and property access on possibly-`undefined` values are modelled
explicitly; a thrown exception is an `Except.error`.
-/

namespace YoutubeNotification

/-- The feed topic prefix (`base_topic` in the source). -/
def base_topic : String := "https://www.youtube.com/xml/feeds/videos.xml?channel_id="

/-- JavaScript truthiness of a possibly-`undefined` string: `undefined` and
the empty string are falsy, every other string is truthy. -/
def jsTruthy : Option String → Bool
  | none => false
  | some s => s != ""

/-- JavaScript `String.prototype.toLowerCase` (character-wise lowering). -/
def jsToLower (s : String) : String := ⟨s.data.map Char.toLower⟩

/-- The characters before the first occurrence of `sep` (everything when
`sep` is absent). -/
def takeUntil (sep : Char) : List Char → List Char
  | [] => []
  | c :: cs => if c = sep then [] else c :: takeUntil sep cs

/-- The characters after the last occurrence of `sep`; `none` when `sep`
does not occur. -/
def afterLast (sep : Char) : List Char → Option (List Char)
  | [] => none
  | c :: cs =>
    match afterLast sep cs with
    | some r => some r
    | none => if c = sep then some cs else none

/-- Whether `pat` is a prefix of the second list. -/
def listPrefix : List Char → List Char → Bool
  | [], _ => true
  | _ :: _, [] => false
  | p :: ps, c :: cs => p == c && listPrefix ps cs

/-- Replaces the first occurrence of `pat` by `repl`. -/
def jsReplaceAux (pat repl : List Char) : List Char → List Char
  | [] => []
  | c :: cs =>
    if listPrefix pat (c :: cs) then repl ++ (c :: cs).drop pat.length
    else c :: jsReplaceAux pat repl cs

/-- JavaScript `String.prototype.replace` with a string pattern: only the
first occurrence of `pat` is replaced by `repl`. -/
def jsReplace (s pat repl : String) : String := ⟨jsReplaceAux pat.data repl.data s.data⟩

/-- The notifier configuration fields the request builder and the callback
handlers read (`hubCallback`, `hubUrl`, `secret` on the class). -/
structure NotifierConfig where
  hubCallback : String
  hubUrl : String
  secret : Option String
  deriving DecidableEq, Repr

/-- The outbound subscription request assembled by `_makeRequest`: the target
url, the form fields later `qs.stringify`-ed, and the content-type header. -/
structure OutboundRequest where
  url : String
  form : List (String × String)
  contentType : String
  deriving DecidableEq, Repr

/-- Looks a field up in a form body (first binding wins). -/
def formGet (k : String) : List (String × String) → Option String
  | [] => none
  | (k', v) :: rest => if k' = k then some v else formGet k rest

/-- `YouTubeNotifier._makeRequest`: builds the form body
(`hub.callback`, `hub.mode`, `hub.topic`, plus `hub.secret` when the
configured secret is truthy) and posts it to the hub url with the
form-encoded content type. -/
def _makeRequest (cfg : NotifierConfig) (channel_id ty : String) : OutboundRequest :=
  let topic := base_topic ++ channel_id
  let data := [("hub.callback", cfg.hubCallback), ("hub.mode", ty), ("hub.topic", topic)]
  let data := if jsTruthy cfg.secret then data ++ [("hub.secret", cfg.secret.getD "")] else data
  { url := cfg.hubUrl
    form := data
    contentType := "application/x-www-form-urlencoded" }

/-- The message of the argument error thrown by `subscribe`/`unsubscribe`. -/
def channelsErr : String := "You need to provide a channel id or an array of channel ids."

/-- The JavaScript value passed to `subscribe`/`unsubscribe`: absent
(`undefined`/`null`/falsy), a string, an array of strings, or some other
truthy non-string non-array value. -/
inductive ChannelsArg where
  | undef
  | str (s : String)
  | arr (xs : List String)
  | otherTruthy
  deriving DecidableEq, Repr

/-- Truthiness of a `ChannelsArg` (`!channels` in the source): arrays and
other objects are always truthy, a string is truthy iff non-empty. -/
def argTruthy : ChannelsArg → Bool
  | .undef => false
  | .str s => s != ""
  | .arr _ => true
  | .otherTruthy => true

/-- `typeof channels === 'string'`. -/
def argIsString : ChannelsArg → Bool
  | .str _ => true
  | _ => false

/-- `Array.isArray(channels)`. -/
def argIsArray : ChannelsArg → Bool
  | .arr _ => true
  | _ => false

/-- `YouTubeNotifier.subscribe`: throws the argument error when the input is
falsy or neither a string nor an array; otherwise fires `_makeRequest` once
per channel id with mode `subscribe`. -/
def subscribe (cfg : NotifierConfig) (channels : ChannelsArg) :
    Except String (List OutboundRequest) :=
  if !argTruthy channels || (!argIsString channels && !argIsArray channels) then
    .error channelsErr
  else
    match channels with
    | .str s => .ok [_makeRequest cfg s "subscribe"]
    | .arr xs => .ok (xs.map fun c => _makeRequest cfg c "subscribe")
    | _ => .error channelsErr

/-- `YouTubeNotifier.unsubscribe`: same guard as `subscribe`, but the
single-string branch of the source calls `this.makeRequest`, a method that
exists neither on the class (which only defines `_makeRequest`) nor on
`EventEmitter`, so that branch throws a `TypeError` and fires nothing; the
array branch calls `_makeRequest` per element with mode `unsubscribe`. -/
def unsubscribe (cfg : NotifierConfig) (channels : ChannelsArg) :
    Except String (List OutboundRequest) :=
  if !argTruthy channels || (!argIsString channels && !argIsArray channels) then
    .error channelsErr
  else
    match channels with
    | .str _ => .error "TypeError: this.makeRequest is not a function"
    | .arr xs => .ok (xs.map fun c => _makeRequest cfg c "unsubscribe")
    | _ => .error channelsErr

/-- The parsed query of a GET callback
(`urllib.parse(req.url, true, true).query`), restricted to the parameters
the handler reads; a parameter missing from the query string is `none`. -/
structure GetQuery where
  topic : Option String
  mode : Option String
  challenge : Option String
  lease_seconds : Option String
  deriving DecidableEq, Repr

/-- The event payload built by `_onGetRequest`: `type`, `channel`, and the
`lease_seconds` field that is only sometimes attached. -/
structure IntentData where
  type : String
  channel : String
  lease_seconds : Option String
  deriving DecidableEq, Repr

/-- The attribute bag (the parser's `$` property) of a parsed `<link>`. -/
structure LinkAttrs where
  href : Option String
  deriving DecidableEq, Repr

/-- A parsed `<link>` element; its attribute bag may be absent. -/
structure LinkNode where
  dollar : Option LinkAttrs
  deriving DecidableEq, Repr

/-- A parsed `<author>` element: `name` and `uri` are singleton-wrapped
lists, `none` when the sub-element is missing. -/
structure AuthorNode where
  name : Option (List String)
  uri : Option (List String)
  deriving DecidableEq, Repr

/-- A parsed Atom `<entry>` as delivered by the XML body parser: every field
is list-wrapped and may be absent (`undefined`). -/
structure Entry where
  videoid : Option (List String)
  title : Option (List String)
  link : Option (List LinkNode)
  channelid : Option (List String)
  author : Option (List AuthorNode)
  published : Option (List String)
  updated : Option (List String)
  deriving DecidableEq, Repr

/-- The parsed `req.body.feed` object: the `at:deleted-entry` key (any parsed
value for it is truthy) and the `entry` list. -/
structure Feed where
  deletedEntry : Option Unit
  entry : Option (List Entry)
  deriving DecidableEq, Repr

/-- A POST callback request: the `x-hub-signature` header, the parsed body's
`feed`, and the raw body the HMAC is computed over. -/
structure PostRequest where
  xHubSignature : Option String
  feed : Feed
  rawBody : String
  deriving DecidableEq, Repr

/-- JavaScript property access on a possibly-`undefined` value: throws a
`TypeError` when the value is `undefined`, otherwise reads the field. -/
def jsField {α β : Type} (o : Option α) (f : α → β) : Except String β :=
  match o with
  | none => .error "TypeError: cannot read properties of undefined"
  | some a => .ok (f a)

/-- JavaScript `x[0]` on a possibly-`undefined` array: throws when the array
is `undefined`; indexing an empty array yields `undefined` without throwing. -/
def idx0 {α : Type} (o : Option (List α)) : Except String (Option α) :=
  match o with
  | none => .error "TypeError: cannot read properties of undefined"
  | some xs => .ok xs.head?

/-- The `video` sub-record of the notification payload; fields may hold
`undefined` when an inner index yielded no element. -/
structure VideoData where
  id : Option String
  title : Option String
  link : Option String
  deriving DecidableEq, Repr

/-- The `channel` sub-record of the notification payload. -/
structure ChannelData where
  id : Option String
  name : Option String
  link : Option String
  deriving DecidableEq, Repr

/-- The payload of a `notified` event. -/
structure NotificationData where
  video : VideoData
  channel : ChannelData
  published : Option String
  updated : Option String
  deriving DecidableEq, Repr

/-- The `data` object literal assembled in `_onPostRequest` from the first
entry (`body`), fields evaluated in source order; accessing a property of an
`undefined` value propagates as a thrown `TypeError`. -/
def extractData (b : Option Entry) : Except String NotificationData := do
  let vid ← idx0 (← jsField b Entry.videoid)
  let ttl ← idx0 (← jsField b Entry.title)
  let lnk ← idx0 (← jsField b Entry.link)
  let lattrs ← jsField lnk LinkNode.dollar
  let href ← jsField lattrs LinkAttrs.href
  let cid ← idx0 (← jsField b Entry.channelid)
  let a1 ← idx0 (← jsField b Entry.author)
  let nm ← idx0 (← jsField a1 AuthorNode.name)
  let a2 ← idx0 (← jsField b Entry.author)
  let uri ← idx0 (← jsField a2 AuthorNode.uri)
  let pub ← idx0 (← jsField b Entry.published)
  let upd ← idx0 (← jsField b Entry.updated)
  return { video := { id := vid, title := ttl, link := href }
           channel := { id := cid, name := nm, link := uri }
           published := pub
           updated := upd }

/-- The host crypto provider (an external collaborator of the core): which
algorithm names `crypto.createHmac` accepts without throwing, and the hex
digest the keyed hash produces. -/
structure CryptoProvider where
  validAlgo : String → Bool
  hmacHex : String → String → String → String

/-- The payload of an emitted event. -/
inductive EventPayload where
  | intent (d : IntentData)
  | notification (d : NotificationData)
  deriving DecidableEq, Repr

/-- One observable action of a handler, listed in the order performed:
`res.sendStatus(..)`, `res.status(..).set('Content-Type','text/plain').end(..)`,
or `this.emit(..)`. -/
inductive Action where
  | sendStatus (status : Nat)
  | respondText (status : Nat) (body : String)
  | emit (name : String) (payload : EventPayload)
  deriving DecidableEq, Repr

/-- The names of the events emitted among a list of actions. -/
def emitNames : List Action → List String
  | [] => []
  | Action.emit n _ :: rest => n :: emitNames rest
  | _ :: rest => emitNames rest

/-- The statuses of the responses sent among a list of actions. -/
def respondStatuses : List Action → List Nat
  | [] => []
  | Action.sendStatus s :: rest => s :: respondStatuses rest
  | Action.respondText s _ :: rest => s :: respondStatuses rest
  | Action.emit _ _ :: rest => respondStatuses rest

/-- `YouTubeNotifier._onGetRequest`: validates `hub.topic`/`hub.mode` by
truthiness, answers 400 `Bad Request` on failure, otherwise answers 200 with
the `hub.challenge` value (`res.end(undefined)` sends an empty body) and then
emits an event named by the raw `hub.mode` value, with `lease_seconds`
attached whenever the `hub.lease_seconds` parameter is truthy. -/
def _onGetRequest (q : GetQuery) : List Action :=
  if !jsTruthy q.topic || !jsTruthy q.mode then
    [Action.respondText 400 "Bad Request"]
  else
    let mode := q.mode.getD ""
    let data : IntentData :=
      { type := mode
        channel := jsReplace (q.topic.getD "") base_topic ""
        lease_seconds := if jsTruthy q.lease_seconds then q.lease_seconds else none }
    [Action.respondText 200 (q.challenge.getD ""), Action.emit mode (.intent data)]

/-- The algorithm name taken from a signature header: the part before the
first `=` (`signatureParts.shift()` after splitting on `=`), lower-cased. -/
def headerAlgo (h : String) : String := jsToLower ⟨takeUntil '=' h.data⟩

/-- The hex signature taken from a signature header: the part after the last
`=` (`signatureParts.pop()` after the shift), lower-cased; empty when the
header contains no `=` at all (`pop()` of the emptied array is `undefined`,
defaulted to the empty string in the source). -/
def headerSig (h : String) : String := jsToLower ⟨(afterLast '=' h.data).getD []⟩

/-- `YouTubeNotifier._onPostRequest`: missing-header check, deleted-entry
check, missing-entry check, signature verification (algorithm errors from
`crypto.createHmac` answer 403, digest mismatches answer 200), then payload
extraction and the `notified` emit followed by a 200.  An `Except.error`
result is an exception escaping the handler. -/
def _onPostRequest (cp : CryptoProvider) (cfg : NotifierConfig) (req : PostRequest) :
    Except String (List Action) :=
  if jsTruthy cfg.secret && !jsTruthy req.xHubSignature then
    .ok [Action.sendStatus 403]
  else if req.feed.deletedEntry.isSome then
    .ok [Action.sendStatus 200]
  else if req.feed.entry.isNone then
    .ok [Action.respondText 400 "Bad Request"]
  else
    let body := (req.feed.entry.getD []).head?
    let proceed : Except String (List Action) :=
      (extractData body).map fun data =>
        [Action.emit "notified" (.notification data), Action.sendStatus 200]
    if jsTruthy cfg.secret then
      let algo := headerAlgo (req.xHubSignature.getD "")
      let signature := headerSig (req.xHubSignature.getD "")
      if !cp.validAlgo algo then
        .ok [Action.sendStatus 403]
      else if jsToLower (cp.hmacHex algo (cfg.secret.getD "") req.rawBody) != signature then
        .ok [Action.sendStatus 200]
      else proceed
    else proceed

/-- A concrete crypto provider standing in for the host crypto module: a few
OpenSSL digest names are accepted; the digest function is an arbitrary
concrete stand-in, since the handler theorems below are parametric in the
provider and the handler never inspects the digest beyond string equality. -/
def cryptoEx : CryptoProvider :=
  { validAlgo := fun a => ["sha1", "sha224", "sha256", "sha384", "sha512", "md5"].contains a
    hmacHex := fun algo secret data => "HMAC:" ++ algo ++ ":" ++ secret ++ ":" ++ data }

/-- A concrete configuration with no secret. -/
def cfgNoSecret : NotifierConfig :=
  { hubCallback := "http://example.com/cb"
    hubUrl := "https://pubsubhubbub.appspot.com/"
    secret := none }

/-- A concrete configuration with a secret. -/
def cfgSecret : NotifierConfig :=
  { hubCallback := "http://example.com/cb"
    hubUrl := "https://pubsubhubbub.appspot.com/"
    secret := some "s3cret" }

/-- A fully populated parsed entry. -/
def entryEx : Entry :=
  { videoid := some ["vid1"]
    title := some ["A Title"]
    link := some [{ dollar := some { href := some "http://youtu.be/vid1" } }]
    channelid := some ["UC123"]
    author := some [{ name := some ["Author"], uri := some ["http://yt/UC123"] }]
    published := some ["2020-01-01"]
    updated := some ["2020-01-02"] }

/-- The entry above with its `yt:videoid` element missing. -/
def entryNoVid : Entry := { entryEx with videoid := none }

/-- C1: refuted by the code — `unsubscribe` on a single channel-id string
reaches `this.makeRequest(channels, 'unsubscribe')`, a method that does not
exist, so a `TypeError` is thrown and no request is fired, whereas the
one-element array fires the expected unsubscribe request. -/
theorem c1_unsubscribe_single_string_throws :
    unsubscribe cfgNoSecret (.str "UC123") =
      .error "TypeError: this.makeRequest is not a function" ∧
    unsubscribe cfgNoSecret (.arr ["UC123"]) =
      .ok [{ url := "https://pubsubhubbub.appspot.com/"
             form := [("hub.callback", "http://example.com/cb"),
                      ("hub.mode", "unsubscribe"),
                      ("hub.topic", base_topic ++ "UC123")]
             contentType := "application/x-www-form-urlencoded" }] := by
  constructor <;> rfl

/-- C6: refuted by the code — on an `unsubscribe` intent verification that
carries `hub.lease_seconds`, the emitted event still carries the lease field:
the source attaches it whenever the parameter is truthy, never checking the
mode, contradicting its own comment and the spec's data model. -/
theorem c6_lease_attached_on_unsubscribe :
    _onGetRequest
      { topic := some (base_topic ++ "UC123"), mode := some "unsubscribe"
        challenge := some "ch", lease_seconds := some "300" } =
      [Action.respondText 200 "ch",
       Action.emit "unsubscribe"
         (.intent { type := "unsubscribe", channel := "UC123"
                    lease_seconds := some "300" })] := by
  rfl

/-- C7: refuted by the code — a POST whose entry lacks `yt:videoid` makes the
unguarded access `body['yt:videoid'][0]` throw a `TypeError` that escapes the
handler: no contained 400 `MissingEntryError` response is produced. -/
theorem c7_missing_field_escapes_as_exception :
    _onPostRequest cryptoEx cfgNoSecret
      { xHubSignature := none
        feed := { deletedEntry := none, entry := some [entryNoVid] }
        rawBody := "raw" } =
      .error "TypeError: cannot read properties of undefined" := by
  rfl

deriving instance DecidableEq for Except

/-- A POST request with an entry-bearing body and a signature header whose
algorithm name is not accepted by the provider. -/
def reqBadAlgo : PostRequest :=
  { xHubSignature := some "bogus=abc"
    feed := { deletedEntry := none, entry := some [entryEx] }
    rawBody := "raw" }

/-- C2 counterexample: secret configured, signature header present, algorithm
name `bogus` not accepted by the provider, body carrying an entry — the
handler answers 403, not 200. -/
theorem c2_invalid_algo_answers_403 :
    cryptoEx.validAlgo (headerAlgo "bogus=abc") = false ∧
    _onPostRequest cryptoEx cfgSecret reqBadAlgo = .ok [Action.sendStatus 403] ∧
    _onPostRequest cryptoEx cfgSecret reqBadAlgo ≠ .ok [Action.sendStatus 200] := by
  exact ⟨rfl, rfl, by decide⟩

/-- C2 amended: for every provider, configuration and POST request where a
secret is configured, a signature header is present, the body carries no
deletion marker but does carry an entry list, and the algorithm name taken
from the header is not a valid keyed-hash algorithm for the provider, the
handler answers 403 and emits no event. -/
theorem c2_unsupported_algo (cp : CryptoProvider) (cfg : NotifierConfig)
    (req : PostRequest)
    (hs : jsTruthy cfg.secret = true)
    (hh : jsTruthy req.xHubSignature = true)
    (hd : req.feed.deletedEntry.isSome = false)
    (he : req.feed.entry.isNone = false)
    (ha : cp.validAlgo (headerAlgo (req.xHubSignature.getD "")) = false) :
    _onPostRequest cp cfg req = .ok [Action.sendStatus 403] := by
  unfold _onPostRequest
  simp [hs, hh, hd, he, ha]

/-- Witness for the amended C2 theorem at a concrete request. -/
theorem c2_unsupported_algo_witness :
    _onPostRequest cryptoEx cfgSecret reqBadAlgo = .ok [Action.sendStatus 403] :=
  c2_unsupported_algo cryptoEx cfgSecret reqBadAlgo rfl rfl rfl rfl rfl

/-- A POST request with no entry, no deletion marker, and a signature that
does not match the digest, under an accepted algorithm. -/
def reqNoEntryBadSig : PostRequest :=
  { xHubSignature := some "sha1=deadbeef"
    feed := { deletedEntry := none, entry := none }
    rawBody := "raw" }

/-- C3 counterexample: secret configured, signature header present with the
accepted algorithm `sha1` and a hex part that differs from the digest, but
the body carries no entry — the handler answers 400 `Bad Request`, not 200. -/
theorem c3_mismatch_without_entry_answers_400 :
    headerSig "sha1=deadbeef" ≠
      jsToLower (cryptoEx.hmacHex (headerAlgo "sha1=deadbeef") "s3cret" "raw") ∧
    _onPostRequest cryptoEx cfgSecret reqNoEntryBadSig =
      .ok [Action.respondText 400 "Bad Request"] := by
  exact ⟨by decide, rfl⟩

/-- C3 amended: for every provider, configuration and POST request where a
secret is configured, a signature header is present with an accepted
algorithm, the body carries a deletion marker or an entry list, and the
lower-cased hex part after the last `=` differs from the lower-cased hex
digest of the raw body, the handler answers 200 (not 403) and emits no
`notified` event. -/
theorem c3_sig_mismatch_answers_200 (cp : CryptoProvider) (cfg : NotifierConfig)
    (req : PostRequest)
    (hs : jsTruthy cfg.secret = true)
    (hh : jsTruthy req.xHubSignature = true)
    (hb : req.feed.deletedEntry.isSome = true ∨ req.feed.entry.isNone = false)
    (ha : cp.validAlgo (headerAlgo (req.xHubSignature.getD "")) = true)
    (hm : jsToLower (cp.hmacHex (headerAlgo (req.xHubSignature.getD ""))
            (cfg.secret.getD "") req.rawBody) ≠
          headerSig (req.xHubSignature.getD "")) :
    _onPostRequest cp cfg req = .ok [Action.sendStatus 200] := by
  unfold _onPostRequest
  rcases hb with hb | hb
  · simp [hs, hh, hb]
  · by_cases hd : req.feed.deletedEntry.isSome
    · simp [hs, hh, hd]
    · simp [hs, hh, hd, hb, ha, bne_iff_ne, hm]

/-- A POST request with an entry-bearing body and a mismatching signature
under an accepted algorithm. -/
def reqEntryBadSig : PostRequest :=
  { xHubSignature := some "sha1=deadbeef"
    feed := { deletedEntry := none, entry := some [entryEx] }
    rawBody := "raw" }

/-- Witness for the amended C3 theorem at a concrete request. -/
theorem c3_sig_mismatch_answers_200_witness :
    _onPostRequest cryptoEx cfgSecret reqEntryBadSig = .ok [Action.sendStatus 200] :=
  c3_sig_mismatch_answers_200 cryptoEx cfgSecret reqEntryBadSig rfl rfl (Or.inr rfl) rfl
    (by decide)

/-- A deletion-marker POST carrying no signature header. -/
def reqDeletedNoHeader : PostRequest :=
  { xHubSignature := none
    feed := { deletedEntry := some (), entry := none }
    rawBody := "" }

/-- C4 counterexample: with a secret configured and no signature header, a
deletion-marker POST is answered 403, not 200 — the missing-header check
fires before the deleted-entry check, so the response is not independent of
the secret configuration. -/
theorem c4_deleted_without_header_answers_403 :
    _onPostRequest cryptoEx cfgSecret reqDeletedNoHeader = .ok [Action.sendStatus 403] ∧
    _onPostRequest cryptoEx cfgSecret reqDeletedNoHeader ≠ .ok [Action.sendStatus 200] := by
  exact ⟨rfl, by decide⟩

/-- C4 amended: a deletion-marker POST is answered 200 with no event whenever
no secret is configured or a signature header is present (whatever its
content); only a configured secret together with a missing header yields a
403 instead. -/
theorem c4_deleted_answers_200 (cp : CryptoProvider) (cfg : NotifierConfig)
    (req : PostRequest)
    (hd : req.feed.deletedEntry.isSome = true)
    (hok : jsTruthy cfg.secret = false ∨ jsTruthy req.xHubSignature = true) :
    _onPostRequest cp cfg req = .ok [Action.sendStatus 200] := by
  unfold _onPostRequest
  rcases hok with h | h <;> simp [h, hd]

/-- Witness for the amended C4 theorem: deletion marker with a secret
configured and a signature header present. -/
theorem c4_deleted_answers_200_witness :
    _onPostRequest cryptoEx cfgSecret
      { xHubSignature := some "sha1=zz"
        feed := { deletedEntry := some (), entry := none }
        rawBody := "" } = .ok [Action.sendStatus 200] :=
  c4_deleted_answers_200 cryptoEx cfgSecret _ rfl (Or.inr rfl)

/-- A GET query with `hub.topic` present but holding the empty value. -/
def qEmptyTopic : GetQuery :=
  { topic := some "", mode := some "subscribe", challenge := some "abc"
    lease_seconds := none }

/-- C5 counterexample: a query that lacks neither parameter — `hub.topic` is
present with the empty value — is answered 400, not 200 with the challenge. -/
theorem c5_present_empty_topic_answers_400 :
    qEmptyTopic.topic ≠ none ∧ qEmptyTopic.mode ≠ none ∧
    _onGetRequest qEmptyTopic = [Action.respondText 400 "Bad Request"] := by
  exact ⟨by decide, by decide, rfl⟩

/-- C5 amended: when `hub.topic` or `hub.mode` is absent or empty the handler
answers 400 `Bad Request` and emits nothing; when both are present and
non-empty it answers 200 with the verbatim `hub.challenge` value (empty body
when that parameter is absent) and only afterwards emits the verification
event. -/
theorem c5_get_dispatch (q : GetQuery) :
    (jsTruthy q.topic = false ∨ jsTruthy q.mode = false →
      _onGetRequest q = [Action.respondText 400 "Bad Request"]) ∧
    (jsTruthy q.topic = true → jsTruthy q.mode = true →
      _onGetRequest q =
        [Action.respondText 200 (q.challenge.getD ""),
         Action.emit (q.mode.getD "")
           (.intent { type := q.mode.getD ""
                      channel := jsReplace (q.topic.getD "") base_topic ""
                      lease_seconds :=
                        if jsTruthy q.lease_seconds then q.lease_seconds else none })]) := by
  constructor
  · intro h
    unfold _onGetRequest
    rcases h with h | h <;> simp [h]
  · intro ht hm
    unfold _onGetRequest
    simp [ht, hm]

/-- Witness for the C5 theorem at the spec's end-to-end example query. -/
theorem c5_get_dispatch_witness :
    _onGetRequest
      { topic := some (base_topic ++ "UC123"), mode := some "subscribe"
        challenge := some "abc", lease_seconds := none } =
      [Action.respondText 200 "abc",
       Action.emit "subscribe"
         (.intent { type := "subscribe", channel := "UC123", lease_seconds := none })] :=
  (c5_get_dispatch _).2 rfl rfl

/-- C8: for every configuration, channel id and intent string, the built
request targets the hub url with the form-encoded content type, and its form
body holds `hub.callback`, `hub.mode`, `hub.topic = base_topic ++ c`, and
`hub.secret` exactly when the configured secret is truthy. -/
theorem c8_makeRequest_form (cfg : NotifierConfig) (c i : String) :
    (_makeRequest cfg c i).url = cfg.hubUrl ∧
    (_makeRequest cfg c i).contentType = "application/x-www-form-urlencoded" ∧
    formGet "hub.callback" (_makeRequest cfg c i).form = some cfg.hubCallback ∧
    formGet "hub.mode" (_makeRequest cfg c i).form = some i ∧
    formGet "hub.topic" (_makeRequest cfg c i).form = some (base_topic ++ c) ∧
    formGet "hub.secret" (_makeRequest cfg c i).form =
      (if jsTruthy cfg.secret then some (cfg.secret.getD "") else none) := by
  unfold _makeRequest
  by_cases h : jsTruthy cfg.secret <;> simp [h, formGet]

/-- C9 counterexample: the empty array is accepted — no argument error is
thrown and zero requests are fired, by `subscribe` and by `unsubscribe`. -/
theorem c9_empty_array_accepted :
    subscribe cfgNoSecret (.arr []) = .ok [] ∧
    unsubscribe cfgNoSecret (.arr []) = .ok [] := by
  exact ⟨rfl, rfl⟩

/-- C9 amended: `subscribe` and `unsubscribe` throw the argument error
whenever the input is falsy (absent or the empty string) or neither a string
nor an array, firing no request; an empty array, however, is accepted and
simply fires no request. -/
theorem c9_argument_guard (cfg : NotifierConfig) (a : ChannelsArg)
    (h : argTruthy a = false ∨ (argIsString a = false ∧ argIsArray a = false)) :
    subscribe cfg a = .error channelsErr ∧
    unsubscribe cfg a = .error channelsErr ∧
    subscribe cfg (.arr []) = .ok [] ∧
    unsubscribe cfg (.arr []) = .ok [] := by
  refine ⟨?_, ?_, rfl, rfl⟩
  · unfold subscribe
    rcases h with h | ⟨h1, h2⟩
    · simp [h]
    · simp [h1, h2]
  · unfold unsubscribe
    rcases h with h | ⟨h1, h2⟩
    · simp [h]
    · simp [h1, h2]

/-- Witness for the C9 theorem at the absent argument. -/
theorem c9_argument_guard_witness :
    subscribe cfgNoSecret .undef = .error channelsErr ∧
    unsubscribe cfgNoSecret .undef = .error channelsErr ∧
    subscribe cfgNoSecret (.arr []) = .ok [] ∧
    unsubscribe cfgNoSecret (.arr []) = .ok [] :=
  c9_argument_guard cfgNoSecret .undef (Or.inl rfl)

/-- A GET query holding both parameters, with an empty `hub.mode` value. -/
def qEmptyMode : GetQuery :=
  { topic := some (base_topic ++ "UC123"), mode := some ""
    challenge := some "abc", lease_seconds := none }

/-- C10 counterexample: a query holding both `hub.topic` and `hub.mode` whose
mode value is the empty string is answered 400 and emits no event at all. -/
theorem c10_empty_mode_emits_nothing :
    qEmptyMode.topic ≠ none ∧ qEmptyMode.mode ≠ none ∧
    _onGetRequest qEmptyMode = [Action.respondText 400 "Bad Request"] ∧
    emitNames (_onGetRequest qEmptyMode) = [] := by
  exact ⟨by decide, by decide, rfl, rfl⟩

/-- C10 amended: when `hub.topic` is truthy and `hub.mode` holds any
non-empty string `m` — never validated against the subscribe/unsubscribe
enumeration — the handler emits exactly one event, named by the raw value
`m`, and sends exactly one response, a 200. -/
theorem c10_mode_never_validated (q : GetQuery) (m : String)
    (ht : jsTruthy q.topic = true) (hm : q.mode = some m) (hne : m ≠ "") :
    emitNames (_onGetRequest q) = [m] ∧
    respondStatuses (_onGetRequest q) = [200] := by
  have hmt : jsTruthy (some m) = true := by simp [jsTruthy, bne_iff_ne, hne]
  unfold _onGetRequest
  rw [hm]
  simp [ht, hmt, emitNames, respondStatuses]

/-- Witness for the C10 theorem at a mode value outside the intent enum. -/
theorem c10_mode_never_validated_witness :
    emitNames (_onGetRequest
      { topic := some (base_topic ++ "UC1"), mode := some "destroy"
        challenge := none, lease_seconds := none }) = ["destroy"] ∧
    respondStatuses (_onGetRequest
      { topic := some (base_topic ++ "UC1"), mode := some "destroy"
        challenge := none, lease_seconds := none }) = [200] :=
  c10_mode_never_validated _ "destroy" rfl rfl (by decide)

end YoutubeNotification
